import Mathlib

/-!
Verification of the nestjs-prisma adapter layer: a Prisma exception filter
that maps Prisma error codes to HTTP status codes and messages, and a
dependency-injection wrapper around an externally constructed client.

The embedding models JavaScript strings as `List Char` (one list element per
code point), `indexOf` returning `-1` on absence, `substring` clamping a
negative start index to `0`, and object lookups as `String → Option α`
functions where an absent key yields `none` (JS `undefined`).
-/

namespace NestjsPrisma

/-- Characters removed by JavaScript `String.prototype.trim` (WhiteSpace and
LineTerminator code points). -/
def isJsWhitespace (c : Char) : Bool :=
  c = ' ' || c = '\t' || c = '\n' || c = '\r' ||
  c = '\u000B' || c = '\u000C' || c = '\u00A0' || c = '\u1680' ||
  ('\u2000' ≤ c && c ≤ '\u200A') || c = '\u2028' || c = '\u2029' ||
  c = '\u202F' || c = '\u205F' || c = '\u3000' || c = '\uFEFF'

/-- JavaScript `s.trim()`: remove leading and trailing whitespace. -/
def jsTrim (s : List Char) : List Char :=
  ((s.dropWhile isJsWhitespace).reverse.dropWhile isJsWhitespace).reverse

/-- Position of the first occurrence of `c` in `s`, if any. -/
def charIndex : List Char → Char → Option Nat
  | [], _ => none
  | a :: rest, c => if a = c then some 0 else (charIndex rest c).map (· + 1)

/-- JavaScript `s.indexOf(c)`: first index of `c`, or `-1` when absent. -/
def jsIndexOf (s : List Char) (c : Char) : Int :=
  match charIndex s c with
  | some n => (n : Int)
  | none => -1

/-- JavaScript `s.substring(start)` (one-argument form): a negative `start`
is clamped to `0`, a `start` past the end yields the empty string. -/
def jsSubstring (s : List Char) (start : Int) : List Char :=
  s.drop start.toNat

/-- `Prisma.PrismaClientKnownRequestError`, restricted to the two fields the
filter reads: the error code and the raw diagnostic message. -/
structure PrismaError where
  code : String
  message : String
deriving DecidableEq

/-- `@nestjs/common`'s `HttpException` as constructed by the filter:
`new HttpException(\x7b statusCode, message \x7d, statusCode)`. The body's
`statusCode` field and the exception's status are both the raw mapping
lookup, hence `Option Nat` (JS `undefined` when the key is absent). -/
structure HttpExceptionObj where
  bodyStatusCode : Option Nat
  bodyMessage : String
  status : Option Nat
deriving DecidableEq

/-- `ErrorCodesStatusMapping`: a JS object from error-code strings to
status numbers, modelled as a lookup function. -/
abbrev ErrorCodesStatusMapping := String → Option Nat

/-- `ErrorCodesMessageMapping`: a JS object from error-code strings to
message strings, modelled as a lookup function. -/
abbrev ErrorCodesMessageMapping := String → Option String

/-- A JS object literal, written as an association list of its entries. -/
def mappingOfList {α : Type} (l : List (String × α)) : String → Option α :=
  fun k => List.lookup k l

/-- `Object.assign(target, source)`: every own key of `source` overwrites
the corresponding key of `target`; keys absent from `source` are kept. -/
def objectAssign {α : Type} (target source : String → Option α) :
    String → Option α :=
  fun k =>
    match source k with
    | some v => some v
    | none => target k

/-- The filter's built-in default status mapping
(`P2000`, `P2002`, `P2025`). -/
def defaultErrorCodesStatusMapping : ErrorCodesStatusMapping :=
  mappingOfList [("P2000", 400), ("P2002", 409), ("P2025", 404)]

/-- The filter's built-in default message mapping (empty). -/
def defaultErrorCodesMessageMapping : ErrorCodesMessageMapping :=
  mappingOfList []

/-- `PrismaClientExceptionFilter`'s per-instance state: its two effective
mappings after the constructor has run. The `applicationRef` passed to the
base class only feeds the delegated fallback path, which is modelled by the
`CatchResult` constructors below, so it is not stored here. -/
structure PrismaClientExceptionFilter where
  errorCodesStatusMapping : ErrorCodesStatusMapping
  errorCodesMessageMapping : ErrorCodesMessageMapping

/-- The constructor: each override, when non-null (truthy), is
`Object.assign`ed onto the corresponding default mapping. -/
def PrismaClientExceptionFilter.make
    (errorCodesStatusMapping : Option ErrorCodesStatusMapping)
    (errorCodesMessageMapping : Option ErrorCodesMessageMapping) :
    PrismaClientExceptionFilter :=
  { errorCodesStatusMapping :=
      match errorCodesStatusMapping with
      | some m => objectAssign defaultErrorCodesStatusMapping m
      | none => defaultErrorCodesStatusMapping
    errorCodesMessageMapping :=
      match errorCodesMessageMapping with
      | some m => objectAssign defaultErrorCodesMessageMapping m
      | none => defaultErrorCodesMessageMapping }

/-- `defaultExceptionMessage`: take the substring of the raw message from
the first arrow, then the substring of that from its first newline, strip
all newlines, trim, and prefix the bracketed code. -/
def defaultExceptionMessage (exception : PrismaError) : String :=
  let data := exception.message.data
  let shortMessage := jsSubstring data (jsIndexOf data '→')
  "[" ++ exception.code ++ "]: " ++
    (jsTrim ((jsSubstring shortMessage (jsIndexOf shortMessage '\n')).filter
      (fun c => c != '\n'))).asString

/-- The message expression
`this.errorCodesMessageMapping[exception.code] || this.defaultExceptionMessage(exception)`:
the only falsy string is the empty string, so an absent entry and an
empty-string entry both fall back to the derived default message. -/
def responseMessage (filter : PrismaClientExceptionFilter)
    (exception : PrismaError) : String :=
  match filter.errorCodesMessageMapping exception.code with
  | some m => if m = "" then defaultExceptionMessage exception else m
  | none => defaultExceptionMessage exception

/-- Outcome of `catchClientKnownRequestError`. `baseDelegated` and
`baseHandled` are the two `super.catch(..., host)` calls (the base framework
writes the response); `returnedOriginal` and `returnedException` are plain
return values on the GraphQL path; `undefinedResult` is the implicit
`undefined` return when neither branch matches. -/
inductive CatchResult where
  | baseDelegated (exception : PrismaError)
  | baseHandled (httpException : HttpExceptionObj)
  | returnedOriginal (exception : PrismaError)
  | returnedException (httpException : HttpExceptionObj)
  | undefinedResult
deriving DecidableEq

/-- `catchClientKnownRequestError`. The unmapped-code test
`!Object.keys(this.errorCodesStatusMapping).includes(exception.code)` is the
negation of `(lookup).isSome`, since every stored mapping value is a
present number or string. `contextType` is `host.getType()`. -/
def PrismaClientExceptionFilter.catchClientKnownRequestError
    (filter : PrismaClientExceptionFilter) (exception : PrismaError)
    (contextType : String) : CatchResult :=
  let statusCode := filter.errorCodesStatusMapping exception.code
  let message := responseMessage filter exception
  if contextType = "http" then
    if statusCode.isSome = false then
      CatchResult.baseDelegated exception
    else
      CatchResult.baseHandled ⟨statusCode, message, statusCode⟩
  else if contextType = "graphql" then
    if statusCode.isSome = false then
      CatchResult.returnedOriginal exception
    else
      CatchResult.returnedException ⟨statusCode, message, statusCode⟩
  else
    CatchResult.undefinedResult

/-- The public `catch` method simply forwards to
`catchClientKnownRequestError`. -/
def PrismaClientExceptionFilter.catchException
    (filter : PrismaClientExceptionFilter) (exception : PrismaError)
    (contextType : String) : CatchResult :=
  filter.catchClientKnownRequestError exception contextType

/-- `CustomPrismaService`: the injectable wrapper whose constructor stores
the injected client handle in its public `client` field. -/
structure CustomPrismaService (Client : Type) where
  client : Client

/-- Refinement comparison: the default-message derivation as the spec words
it — from the first arrow, take everything after the substring's first
newline, strip newlines, trim, prefix the bracketed code. `none` when the
arrow or the newline the spec's description relies on is absent. -/
def specDerivedMessage (code : String) (raw : String) : Option String :=
  match charIndex raw.data '→' with
  | none => none
  | some i =>
    let fromArrow := raw.data.drop i
    match charIndex fromArrow '\n' with
    | none => none
    | some j =>
      some ("[" ++ code ++ "]: " ++
        (jsTrim ((fromArrow.drop (j + 1)).filter (fun c => c != '\n'))).asString)

/-! ### Helper lemmas about the JS string primitives -/

theorem charIndex_drop (s : List Char) (c : Char) (n : Nat)
    (h : charIndex s c = some n) : s.drop n = c :: s.drop (n + 1) := by
  induction s generalizing n with
  | nil => simp [charIndex] at h
  | cons a rest ih =>
    rw [charIndex] at h
    by_cases hac : a = c
    · rw [if_pos hac] at h
      injection h with h0
      subst h0
      simpa using hac
    · rw [if_neg hac] at h
      rcases Option.map_eq_some'.mp h with ⟨m, hm, hn⟩
      subst hn
      simpa [List.drop_succ_cons] using ih m hm

theorem filter_ne_of_charIndex_none (s : List Char) (c : Char)
    (h : charIndex s c = none) : s.filter (fun a => a != c) = s := by
  induction s with
  | nil => rfl
  | cons a rest ih =>
    rw [charIndex] at h
    by_cases hac : a = c
    · rw [if_pos hac] at h
      exact absurd h (by simp)
    · rw [if_neg hac] at h
      have hr : charIndex rest c = none := Option.map_eq_none'.mp h
      simp [List.filter_cons, hac, ih hr]

theorem jsIndexOf_eq_coe (s : List Char) (c : Char) (n : Nat)
    (h : charIndex s c = some n) : jsIndexOf s c = (n : Int) := by
  simp [jsIndexOf, h]

theorem jsIndexOf_eq_neg_one (s : List Char) (c : Char)
    (h : charIndex s c = none) : jsIndexOf s c = -1 := by
  simp [jsIndexOf, h]

theorem jsSubstring_neg_one (s : List Char) : jsSubstring s (-1) = s := rfl

theorem jsSubstring_coe (s : List Char) (n : Nat) :
    jsSubstring s (n : Int) = s.drop n := rfl

theorem defaultExceptionMessage_of_indices (e : PrismaError) (i j : Nat)
    (hi : charIndex e.message.data '→' = some i)
    (hj : charIndex (e.message.data.drop i) '\n' = some j) :
    defaultExceptionMessage e =
      "[" ++ e.code ++ "]: " ++
        (jsTrim (((e.message.data.drop i).drop (j + 1)).filter
          (fun c => c != '\n'))).asString := by
  simp only [defaultExceptionMessage]
  rw [jsIndexOf_eq_coe _ _ _ hi, jsSubstring_coe]
  rw [jsIndexOf_eq_coe _ _ _ hj, jsSubstring_coe]
  rw [charIndex_drop _ _ _ hj]
  simp [List.filter_cons]

theorem specDerivedMessage_of_indices (code raw : String) (i j : Nat)
    (hi : charIndex raw.data '→' = some i)
    (hj : charIndex (raw.data.drop i) '\n' = some j) :
    specDerivedMessage code raw =
      some ("[" ++ code ++ "]: " ++
        (jsTrim (((raw.data.drop i).drop (j + 1)).filter
          (fun c => c != '\n'))).asString) := by
  simp only [specDerivedMessage, hi, hj]

/-! ### Claims -/

/-- Claim C2: for every error whose raw diagnostic text derives a message
the way the spec words it (substring from the first arrow, everything after
its first newline, newlines stripped, trimmed, code prefixed in brackets),
the code computes exactly that message; in particular, for raw text
"... → (newline)  Some detail here(newline)" and code P2002 the result is
"[P2002]: Some detail here". -/
theorem claim_C2_default_message_derivation :
    (∀ (e : PrismaError) (s : String),
        specDerivedMessage e.code e.message = some s →
        defaultExceptionMessage e = s) ∧
    defaultExceptionMessage ⟨"P2002", "... → \n  Some detail here\n"⟩ =
      "[P2002]: Some detail here" := by
  constructor
  · intro e s h
    cases hi : charIndex e.message.data '→' with
    | none => simp [specDerivedMessage, hi] at h
    | some i =>
      cases hj : charIndex (e.message.data.drop i) '\n' with
      | none => simp [specDerivedMessage, hi, hj] at h
      | some j =>
        rw [specDerivedMessage_of_indices e.code e.message i j hi hj] at h
        rw [defaultExceptionMessage_of_indices e i j hi hj]
        exact Option.some.inj h
  · decide

/-- Witness for C2 at the spec's worked example. -/
theorem claim_C2_witness :
    specDerivedMessage "P2002" "... → \n  Some detail here\n" =
      some "[P2002]: Some detail here" ∧
    defaultExceptionMessage ⟨"P2002", "... → \n  Some detail here\n"⟩ =
      "[P2002]: Some detail here" :=
  ⟨by decide,
   claim_C2_default_message_derivation.1
     ⟨"P2002", "... → \n  Some detail here\n"⟩
     "[P2002]: Some detail here" (by decide)⟩

/-- Claim C10: when the raw diagnostic text contains neither an arrow nor a
newline, the substring lookups degenerate (indexOf returns -1, substring
clamps to position 0) and the derived message is the bracketed code followed
by the whole text, trimmed. -/
theorem claim_C10_malformed_text_total (e : PrismaError)
    (harrow : charIndex e.message.data '→' = none)
    (hnl : charIndex e.message.data '\n' = none) :
    defaultExceptionMessage e =
      "[" ++ e.code ++ "]: " ++ (jsTrim e.message.data).asString := by
  simp only [defaultExceptionMessage]
  rw [jsIndexOf_eq_neg_one _ _ harrow, jsSubstring_neg_one]
  rw [jsIndexOf_eq_neg_one _ _ hnl, jsSubstring_neg_one]
  rw [filter_ne_of_charIndex_none _ _ hnl]

/-- Witness for C10 on a concrete arrow-free, newline-free message. -/
theorem claim_C10_witness :
    charIndex ("  raw text  " : String).data '→' = none ∧
    charIndex ("  raw text  " : String).data '\n' = none ∧
    defaultExceptionMessage ⟨"P2010", "  raw text  "⟩ =
      "[" ++ "P2010" ++ "]: " ++ (jsTrim ("  raw text  " : String).data).asString :=
  ⟨by decide, by decide,
   claim_C10_malformed_text_total ⟨"P2010", "  raw text  "⟩ (by decide) (by decide)⟩

/-- Claim C1: with the default status mapping in force (no status override,
any message override), an error bearing one of the three default-mapped
codes in an http context is handed to the base framework as an HttpException
whose status and whose body statusCode both equal the default mapping value:
400 for P2000, 409 for P2002, 404 for P2025. -/
theorem claim_C1_default_mapped_http
    (messageOverride : Option ErrorCodesMessageMapping) (m : String) :
    ((PrismaClientExceptionFilter.make none messageOverride).catchClientKnownRequestError
        ⟨"P2000", m⟩ "http" =
      CatchResult.baseHandled
        ⟨some 400,
         responseMessage (.make none messageOverride) ⟨"P2000", m⟩, some 400⟩) ∧
    ((PrismaClientExceptionFilter.make none messageOverride).catchClientKnownRequestError
        ⟨"P2002", m⟩ "http" =
      CatchResult.baseHandled
        ⟨some 409,
         responseMessage (.make none messageOverride) ⟨"P2002", m⟩, some 409⟩) ∧
    ((PrismaClientExceptionFilter.make none messageOverride).catchClientKnownRequestError
        ⟨"P2025", m⟩ "http" =
      CatchResult.baseHandled
        ⟨some 404,
         responseMessage (.make none messageOverride) ⟨"P2025", m⟩, some 404⟩) :=
  ⟨rfl, rfl, rfl⟩

/-- Witness for C1 at code P2002 with no overrides. -/
theorem claim_C1_witness :
    (PrismaClientExceptionFilter.make none none).catchClientKnownRequestError
        ⟨"P2002", "boom"⟩ "http" =
      CatchResult.baseHandled
        ⟨some 409, responseMessage (.make none none) ⟨"P2002", "boom"⟩, some 409⟩ :=
  (claim_C1_default_mapped_http none "boom").2.1

/-- Claim C3: the constructor shallow-merges each override onto the built-in
defaults — an override entry wins on its key, every key absent from the
override keeps its default — and constructing with status override
P2999 ↦ 418 keeps P2000 ↦ 400, P2002 ↦ 409, P2025 ↦ 404 and adds
P2999 ↦ 418. -/
theorem claim_C3_constructor_merge :
    (∀ (so : ErrorCodesStatusMapping) (mo : Option ErrorCodesMessageMapping)
        (k : String) (v : Nat), so k = some v →
        (PrismaClientExceptionFilter.make (some so) mo).errorCodesStatusMapping k =
          some v) ∧
    (∀ (so : ErrorCodesStatusMapping) (mo : Option ErrorCodesMessageMapping)
        (k : String), so k = none →
        (PrismaClientExceptionFilter.make (some so) mo).errorCodesStatusMapping k =
          defaultErrorCodesStatusMapping k) ∧
    (∀ (mo : ErrorCodesMessageMapping) (so : Option ErrorCodesStatusMapping)
        (k : String) (v : String), mo k = some v →
        (PrismaClientExceptionFilter.make so (some mo)).errorCodesMessageMapping k =
          some v) ∧
    (∀ (mo : ErrorCodesMessageMapping) (so : Option ErrorCodesStatusMapping)
        (k : String), mo k = none →
        (PrismaClientExceptionFilter.make so (some mo)).errorCodesMessageMapping k =
          defaultErrorCodesMessageMapping k) ∧
    ((PrismaClientExceptionFilter.make (some (mappingOfList [("P2999", 418)]))
        none).errorCodesStatusMapping "P2000" = some 400 ∧
     (PrismaClientExceptionFilter.make (some (mappingOfList [("P2999", 418)]))
        none).errorCodesStatusMapping "P2002" = some 409 ∧
     (PrismaClientExceptionFilter.make (some (mappingOfList [("P2999", 418)]))
        none).errorCodesStatusMapping "P2025" = some 404 ∧
     (PrismaClientExceptionFilter.make (some (mappingOfList [("P2999", 418)]))
        none).errorCodesStatusMapping "P2999" = some 418) := by
  refine ⟨?_, ?_, ?_, ?_, by decide, by decide, by decide, by decide⟩
  · intro so mo k v h
    simp [PrismaClientExceptionFilter.make, objectAssign, h]
  · intro so mo k h
    simp [PrismaClientExceptionFilter.make, objectAssign, h]
  · intro mo so k v h
    simp [PrismaClientExceptionFilter.make, objectAssign, h]
  · intro mo so k h
    simp [PrismaClientExceptionFilter.make, objectAssign, h]

/-- Witness for C3: the override entry wins and an untouched key keeps its
default. -/
theorem claim_C3_witness :
    (PrismaClientExceptionFilter.make (some (mappingOfList [("P2999", 418)]))
        none).errorCodesStatusMapping "P2999" = some 418 ∧
    (PrismaClientExceptionFilter.make (some (mappingOfList [("P2999", 418)]))
        none).errorCodesStatusMapping "P2000" =
      defaultErrorCodesStatusMapping "P2000" :=
  ⟨claim_C3_constructor_merge.1 (mappingOfList [("P2999", 418)]) none
      "P2999" 418 (by decide),
   claim_C3_constructor_merge.2.1 (mappingOfList [("P2999", 418)]) none
      "P2000" (by decide)⟩

/-- Counterexample to C4 as stated: a message-mapping entry can be present
yet equal to the empty string; the JS truthiness test then falls back to the
derived default message, so the response message does not equal the present
entry. -/
theorem claim_C4_counterexample :
    ((PrismaClientExceptionFilter.make none
        (some (mappingOfList [("P2000", "")]))).errorCodesMessageMapping "P2000" =
      some "") ∧
    ((PrismaClientExceptionFilter.make none
        (some (mappingOfList [("P2000", "")]))).catchClientKnownRequestError
        ⟨"P2000", "boom"⟩ "http" =
      CatchResult.baseHandled ⟨some 400, "[P2000]: boom", some 400⟩) ∧
    ("[P2000]: boom" : String) ≠ "" := by
  refine ⟨by decide, by decide, by decide⟩

/-- Claim C4 (amended): for an error whose code is in the status mapping,
the response message equals the message-mapping entry whenever that entry is
present and non-empty; otherwise (entry absent, or present but the empty
string, which is falsy) it equals the derived default message. In
particular a message override P2000 ↦ "custom" yields "custom" and omitting
P2000 yields the derived default. -/
theorem claim_C4_message_precedence :
    (∀ (f : PrismaClientExceptionFilter) (e : PrismaError) (m : String),
        f.errorCodesMessageMapping e.code = some m → m ≠ "" →
        responseMessage f e = m) ∧
    (∀ (f : PrismaClientExceptionFilter) (e : PrismaError),
        f.errorCodesMessageMapping e.code = none →
        responseMessage f e = defaultExceptionMessage e) ∧
    (∀ (f : PrismaClientExceptionFilter) (e : PrismaError) (v : Nat),
        f.errorCodesStatusMapping e.code = some v →
        f.catchClientKnownRequestError e "http" =
          CatchResult.baseHandled ⟨some v, responseMessage f e, some v⟩) ∧
    (∀ (m : String),
        responseMessage
          (.make none (some (mappingOfList [("P2000", "custom")])))
          ⟨"P2000", m⟩ = "custom") ∧
    (∀ (m : String),
        responseMessage (.make none none) ⟨"P2000", m⟩ =
          defaultExceptionMessage ⟨"P2000", m⟩) := by
  refine ⟨?_, ?_, ?_, fun m => rfl, fun m => rfl⟩
  · intro f e m h hne
    simp [responseMessage, h, hne]
  · intro f e h
    simp [responseMessage, h]
  · intro f e v h
    simp [PrismaClientExceptionFilter.catchClientKnownRequestError, h]

/-- Witness for C4: a non-empty override entry is used verbatim, and a
default-mapped code reaches the base handler with that message. -/
theorem claim_C4_witness :
    responseMessage
        (PrismaClientExceptionFilter.make none
          (some (mappingOfList [("P2000", "custom")]))) ⟨"P2000", "boom"⟩ =
      "custom" ∧
    (PrismaClientExceptionFilter.make none none).catchClientKnownRequestError
        ⟨"P2025", "boom"⟩ "http" =
      CatchResult.baseHandled
        ⟨some 404, responseMessage (.make none none) ⟨"P2025", "boom"⟩, some 404⟩ :=
  ⟨claim_C4_message_precedence.1
      (PrismaClientExceptionFilter.make none
        (some (mappingOfList [("P2000", "custom")])))
      ⟨"P2000", "boom"⟩ "custom" (by decide) (by decide),
   claim_C4_message_precedence.2.2.1
      (PrismaClientExceptionFilter.make none none)
      ⟨"P2025", "boom"⟩ 404 (by decide)⟩

/-- Claim C5: an error whose code is absent from the status mapping is, in
an http context, delegated entirely to the base framework's default handling
with the original exception — no custom statusCode/message body is built. -/
theorem claim_C5_http_unmapped_delegates
    (f : PrismaClientExceptionFilter) (e : PrismaError)
    (h : f.errorCodesStatusMapping e.code = none) :
    f.catchClientKnownRequestError e "http" = CatchResult.baseDelegated e := by
  simp [PrismaClientExceptionFilter.catchClientKnownRequestError, h]

/-- Witness for C5 at an unmapped code. -/
theorem claim_C5_witness :
    (PrismaClientExceptionFilter.make none none).errorCodesStatusMapping
      "P9999" = none ∧
    (PrismaClientExceptionFilter.make none none).catchClientKnownRequestError
        ⟨"P9999", "boom"⟩ "http" =
      CatchResult.baseDelegated ⟨"P9999", "boom"⟩ :=
  ⟨by decide,
   claim_C5_http_unmapped_delegates (PrismaClientExceptionFilter.make none none)
     ⟨"P9999", "boom"⟩ (by decide)⟩

/-- Claim C6: an error whose code is absent from the status mapping is, in a
graphql context, returned unmodified — the very same error value, no
wrapping, no response written. -/
theorem claim_C6_graphql_unmapped_returns_original
    (f : PrismaClientExceptionFilter) (e : PrismaError)
    (h : f.errorCodesStatusMapping e.code = none) :
    f.catchClientKnownRequestError e "graphql" =
      CatchResult.returnedOriginal e := by
  simp [PrismaClientExceptionFilter.catchClientKnownRequestError, h]

/-- Witness for C6 at an unmapped code. -/
theorem claim_C6_witness :
    (PrismaClientExceptionFilter.make none none).errorCodesStatusMapping
      "P9999" = none ∧
    (PrismaClientExceptionFilter.make none none).catchClientKnownRequestError
        ⟨"P9999", "boom"⟩ "graphql" =
      CatchResult.returnedOriginal ⟨"P9999", "boom"⟩ :=
  ⟨by decide,
   claim_C6_graphql_unmapped_returns_original
     (PrismaClientExceptionFilter.make none none) ⟨"P9999", "boom"⟩ (by decide)⟩

/-- Claim C7: an error whose code is present in the status mapping is, in a
graphql context, turned into a newly constructed HttpException carrying the
statusCode/message body and the mapped status, returned as a value — not
delegated to the base handler and with no response written. -/
theorem claim_C7_graphql_mapped_returns_exception
    (f : PrismaClientExceptionFilter) (e : PrismaError) (v : Nat)
    (h : f.errorCodesStatusMapping e.code = some v) :
    f.catchClientKnownRequestError e "graphql" =
      CatchResult.returnedException ⟨some v, responseMessage f e, some v⟩ := by
  simp [PrismaClientExceptionFilter.catchClientKnownRequestError, h]

/-- Witness for C7 at default-mapped code P2025. -/
theorem claim_C7_witness :
    (PrismaClientExceptionFilter.make none none).errorCodesStatusMapping
      "P2025" = some 404 ∧
    (PrismaClientExceptionFilter.make none none).catchClientKnownRequestError
        ⟨"P2025", "boom"⟩ "graphql" =
      CatchResult.returnedException
        ⟨some 404, responseMessage (.make none none) ⟨"P2025", "boom"⟩, some 404⟩ :=
  ⟨by decide,
   claim_C7_graphql_mapped_returns_exception
     (PrismaClientExceptionFilter.make none none) ⟨"P2025", "boom"⟩ 404
     (by decide)⟩

/-- Claim C8: the client wrapper stores the injected handle unchanged — its
public client field is exactly the constructor argument. -/
theorem claim_C8_client_identity :
    ∀ (Client : Type) (h : Client), (CustomPrismaService.mk h).client = h :=
  fun _ _ => rfl

/-- Witness for C8 at a concrete handle. -/
theorem claim_C8_witness : (CustomPrismaService.mk 42).client = 42 :=
  claim_C8_client_identity Nat 42

/-- Claim C9: in a request context that is neither http nor graphql the
filter handles nothing — no branch matches and the method falls through to
the implicit undefined return. -/
theorem claim_C9_other_context_undefined_result
    (f : PrismaClientExceptionFilter) (e : PrismaError) (ctx : String)
    (h1 : ctx ≠ "http") (h2 : ctx ≠ "graphql") :
    f.catchClientKnownRequestError e ctx = CatchResult.undefinedResult := by
  simp [PrismaClientExceptionFilter.catchClientKnownRequestError, h1, h2]

/-- Witness for C9 in a websocket context. -/
theorem claim_C9_witness :
    (PrismaClientExceptionFilter.make none none).catchClientKnownRequestError
      ⟨"P2002", "boom"⟩ "ws" = CatchResult.undefinedResult :=
  claim_C9_other_context_undefined_result
    (PrismaClientExceptionFilter.make none none) ⟨"P2002", "boom"⟩ "ws"
    (by decide) (by decide)

end NestjsPrisma
